import Mathlib

/-!
Verification of the metrics instrumentation pipeline in
`src/backend/services/metrics.py` (cohere-toolkit).

The Python module is shallowly embedded: plain Python values (None, strings,
ints, bools, dicts) become the inductive `Val`; Python dicts become
insertion-ordered association lists with unique keys by construction;
exceptions become an explicit `PyErr` type threaded through `Except`;
the decorators become functions from the wrapped call's outcome to the
wrapper's observable outcome (returned/raised value, forwarded kwargs,
dispatched record).  Wall-clock timing (`duration_ms`) is not modelled.
-/

namespace Metrics

/-- A plain Python value: `None`, `str`, `int`, `bool`, or `dict` (modelled as
an insertion-ordered association list of string keys). -/
inductive Val where
  | none : Val
  | str (s : String) : Val
  | int (n : Int) : Val
  | bool (b : Bool) : Val
  | dict (entries : List (String × Val)) : Val

/-- A Python dict with string keys, as used for kwargs, event dicts and
`object_ids`: insertion-ordered association list; all construction in this file
goes through `dictInsert`/`dictPop`, which keep keys unique. -/
abbrev PyDict := List (String × Val)

/-- Python `d.get(k)`: the value at `k`, or `None` when absent. -/
def pyGet (d : PyDict) (k : String) : Val :=
  (((d.find? (fun p => p.1 == k)).map (fun p => p.2)).getD Val.none)

/-- Python `v.get(k, default)` on a value expected to be a dict.  In Python a
non-dict receiver would raise `AttributeError`; the modelled code only applies
this to dict receivers (or the `{}` literal default), so the non-dict case is
mapped to the default. -/
def pyGetD (v : Val) (k : String) (default : Val) : Val :=
  match v with
  | Val.dict d => (((d.find? (fun p => p.1 == k)).map (fun p => p.2)).getD default)
  | _ => default

/-- Python `d[k] = v`: update the first (unique) occurrence of `k` in place,
else append `(k, v)` — exactly a Python dict's insertion-order semantics. -/
def dictInsert : PyDict → String → Val → PyDict
  | [], k, v => [(k, v)]
  | p :: rest, k, v => if p.1 == k then (k, v) :: rest else p :: dictInsert rest k v

/-- Python `d.pop(k, None)`: the value at `k` (or `None`) together with the
dict with that key removed. -/
def dictPop (d : PyDict) (k : String) : Val × PyDict :=
  match d.find? (fun p => p.1 == k) with
  | some p => (p.2, d.eraseP (fun q => q.1 == k))
  | Option.none => (Val.none, d)

/-! ### Python string primitives used by `get_endpoint_name`

`str.replace`, substring containment (`in`), `str.endswith("/")` /
`path[:-1]`, and `str.lower` (per-character, faithful on ASCII). -/

/-- Left-to-right non-overlapping replacement scan for a non-empty pattern
`old`, with enough fuel (each step consumes at least one character, so fuel
`s.length` suffices).  Mirrors CPython's `str.replace` scan. -/
def replaceGo (old new : List Char) : Nat → List Char → List Char
  | 0, s => s
  | _ + 1, [] => []
  | fuel + 1, c :: rest =>
    if old.isPrefixOf (c :: rest) then
      new ++ replaceGo old new fuel (List.drop old.length (c :: rest))
    else
      c :: replaceGo old new fuel rest

/-- Python `s.replace(old, new)`.  For the empty pattern Python inserts `new`
before every character and at the end (`"ab".replace("", "X") = "XaXbX"`). -/
def pyReplace (s old new : String) : String :=
  match old.data with
  | [] => String.mk (new.data ++ s.data.foldr (fun c acc => c :: (new.data ++ acc)) [])
  | _ :: _ => String.mk (replaceGo old.data new.data s.data.length s.data)

/-- Python `sub in s` (contiguous substring containment; the empty string is
contained in everything). -/
def containsSub : List Char → List Char → Bool
  | s, sub =>
    sub.isPrefixOf s ||
      match s with
      | [] => false
      | _ :: t => containsSub t sub

/-- Python `s.endswith("/")`. -/
def endsWithSlash (s : List Char) : Bool :=
  match s.getLast? with
  | some c => c == '/'
  | Option.none => false

/-- Python `s.lower()`, per character (faithful on the ASCII range). -/
def pyLower (s : String) : String :=
  String.mk (s.data.map Char.toLower)

/-! ### Exceptions and the metrics record -/

/-- A Python exception as far as the module observes it: `cohere`'s `ApiError`
(carrying a structured `status_code`), the interpreter's `AttributeError`, or
any other exception.  `str(e)` is `errMessage`. -/
inductive PyErr where
  | apiError (msg : String) (status_code : Int) : PyErr
  | attributeError (msg : String) : PyErr
  | other (msg : String) : PyErr

/-- Python `str(e)`. -/
def errMessage : PyErr → String
  | PyErr.apiError m _ => m
  | PyErr.attributeError m => m
  | PyErr.other m => m

/-- `backend.schemas.metrics.MetricsData` (the schema file is not under src/;
the fields are exactly those the module constructs or assigns:
constructor kwargs `endpoint_name`, `method`, `trace_id`, `user_id`,
`assistant_id`, `model`, `success`, the middleware kwargs `user`,
`status_code`, `object_ids`, `assistant`, and the assigned attributes
`error`, `input_tokens`, `output_tokens`, `input_nb_tokens`,
`output_nb_tokens`, `search_units`).  `duration_ms` (wall-clock) is not
modelled. -/
structure MetricsData where
  endpoint_name : String
  method : String
  trace_id : Val := Val.none
  user_id : Val := Val.none
  user : Val := Val.none
  assistant_id : Val := Val.none
  assistant : Val := Val.none
  object_ids : PyDict := []
  model : Val := Val.none
  success : Bool := true
  error : Val := Val.none
  status_code : Val := Val.none
  input_tokens : Val := Val.none
  output_tokens : Val := Val.none
  input_nb_tokens : Val := Val.none
  output_nb_tokens : Val := Val.none
  search_units : Val := Val.none

/-- `backend.schemas.cohere_chat.CohereChatRequest`, reduced to the single
attribute the module reads (`chat_request.model`). -/
structure ChatRequest where
  model : Val

/-- Modelled from the spec: `backend.chat.collate.to_dict` is not under src/.
The spec's streaming contract ("yield every item from the upstream sequence,
unmodified") and reporter contract ("serializes the record to a plain
key-value structure") make it the identity on the already-plain value domain
used here. -/
def to_dict (v : Val) : Val := v

/-- `to_dict` specialised to stream event items, which are already plain
dicts; see `to_dict`. -/
def to_dict_event (e : PyDict) : PyDict := e

/-- Modelled from the spec: `backend.chat.enums.StreamEvent` is not under
src/; only the terminal-event marker `STREAM_END` is needed ("the final item
in a lazy event sequence signaling stream completion"). -/
def STREAM_END : String := "stream-end"

/-- `initialize_metrics_data` (metrics.py:279-293): pop the reserved keys
`trace_id`, `user_id`, `agent_id` from the kwargs, build the record, and
return the record together with the remaining kwargs. -/
def initialize_metrics_data (func_name : String) (chat_request : Option ChatRequest)
    (kwargs : PyDict) : MetricsData × PyDict :=
  let p1 := dictPop kwargs "trace_id"
  let p2 := dictPop p1.2 "user_id"
  let p3 := dictPop p2.2 "agent_id"
  ({ endpoint_name := "co." ++ func_name
     method := "POST"
     trace_id := p1.1
     user_id := p2.1
     assistant_id := p3.1
     model := match chat_request with
              | some c => c.model
              | Option.none => Val.none
     success := true }, p3.2)

/-- `get_input_output_tokens` (metrics.py:296-306). -/
def get_input_output_tokens (response_dict : Val) : Val × Val :=
  match response_dict with
  | Val.none => (Val.none, Val.none)
  | r =>
    (pyGetD (pyGetD (pyGetD r "meta" (Val.dict [])) "billed_units" (Val.dict [])) "input_tokens" Val.none,
     pyGetD (pyGetD (pyGetD r "meta" (Val.dict [])) "billed_units" (Val.dict [])) "output_tokens" Val.none)

/-- `get_search_units` (metrics.py:309-310). -/
def get_search_units (response_dict : Val) : Val :=
  pyGetD (pyGetD (pyGetD response_dict "meta" (Val.dict [])) "billed_units" (Val.dict [])) "search_units" Val.none

/-- `v == "lit"` for a Python value: true exactly when `v` is that string
(a missing key, i.e. `None`, or any non-string compares unequal). -/
def valEqStr (v : Val) (s : String) : Bool :=
  match v with
  | Val.str t => t == s
  | _ => false

/-- `is_event_end_with_error` (metrics.py:313-318): the event is the terminal
`STREAM_END` event and its `finish_reason` is neither `"COMPLETE"` nor
`"MAX_TOKENS"` (a missing `finish_reason` therefore counts as an error). -/
def is_event_end_with_error (event_dict : PyDict) : Bool :=
  valEqStr (pyGet event_dict "event_type") STREAM_END
    && !valEqStr (pyGet event_dict "finish_reason") "COMPLETE"
    && !valEqStr (pyGet event_dict "finish_reason") "MAX_TOKENS"

/-- `handle_error` (metrics.py:321-326): record the failure; the structured
status code is copied only for `ApiError`. -/
def handle_error (metrics_data : MetricsData) (e : PyErr) : MetricsData :=
  let md := { metrics_data with success := false, error := Val.str (errMessage e) }
  match e with
  | PyErr.apiError _ code => { md with status_code := Val.int code }
  | _ => md

/-! ### Middleware extractors (`MetricsMiddleware`) -/

/-- A duck-typed per-request context object (`request.state.user` /
`request.state.agent`): attribute reads either yield a value or raise
`AttributeError`. -/
structure PyAttrObj where
  attrs : List (String × Val)

/-- Python `obj.name`: the attribute's value, or a raised `AttributeError`
when the object lacks the attribute. -/
def getAttr (o : PyAttrObj) (name : String) : Except PyErr Val :=
  match o.attrs.find? (fun p => p.1 == name) with
  | some p => Except.ok p.2
  | Option.none => Except.error (PyErr.attributeError name)

/-- `MetricsMiddleware.get_user` (metrics.py:121-133): `None` when the context
has no (truthy) user; otherwise the id/fullname/email snapshot, with the whole
dict construction inside `try` — any attribute error yields `None` after a
logged warning (logging is not modelled). -/
def get_user (user : Option PyAttrObj) : Val :=
  match user with
  | Option.none => Val.none
  | some u =>
    match (do
      let i ← getAttr u "id"
      let f ← getAttr u "fullname"
      let e ← getAttr u "email"
      pure (Val.dict [("id", i), ("fullname", f), ("email", e)]) : Except PyErr Val) with
    | Except.ok v => v
    | Except.error _ => Val.none

/-- `MetricsMiddleware.get_agent` (metrics.py:149-163): `None` when the
context has no (truthy) agent; otherwise the nine-field snapshot is built with
NO `try`/`except`, so an attribute error raised while reading a field
propagates to the caller. -/
def get_agent (agent : Option PyAttrObj) : Except PyErr Val :=
  match agent with
  | Option.none => Except.ok Val.none
  | some a => do
    let i ← getAttr a "id"
    let v ← getAttr a "version"
    let n ← getAttr a "name"
    let t ← getAttr a "temperature"
    let m ← getAttr a "model"
    let d ← getAttr a "deployment"
    let de ← getAttr a "description"
    let p ← getAttr a "preamble"
    let tl ← getAttr a "tools"
    pure (Val.dict [("id", i), ("version", v), ("name", n), ("temperature", t),
      ("model", m), ("deployment", d), ("description", de), ("preamble", p), ("tools", tl)])

/-- The parameter-substitution pass of `get_endpoint_name` (metrics.py:80-81):
`for key, value in request.path_params.items(): path = path.replace(value, f":{key}")`. -/
def replaceParams (path : String) (path_params : List (String × String)) : String :=
  path_params.foldl (fun p kv => pyReplace p kv.2 (":" ++ kv.1)) path

/-- The trailing-slash pass of `get_endpoint_name` (metrics.py:83):
`path = path[:-1] if path.endswith("/") else path`. -/
def stripSlash (s : String) : String :=
  if endsWithSlash s.data then String.mk s.data.dropLast else s

/-- `MetricsMiddleware.get_endpoint_name` (metrics.py:76-89), happy path:
substitute each path parameter's value by `:<name>`, strip one trailing slash,
lowercase.  (The `except` fallbacks to `"unknown"` are unreachable for the
plain string/dict inputs modelled here.) -/
def get_endpoint_name (path : String) (path_params : List (String × String)) : String :=
  pyLower (stripSlash (replaceParams path path_params))

/-- `MetricsMiddleware.get_object_ids` (metrics.py:135-147): insert all path
parameters, then all query parameters, into one dict. -/
def get_object_ids (path_params query_params : List (String × Val)) : PyDict :=
  let d := path_params.foldl (fun d kv => dictInsert d kv.1 kv.2) []
  query_params.foldl (fun d kv => dictInsert d kv.1 kv.2) d

/-! ### Reporter and dispatcher -/

/-- An observable side effect of the reporter/dispatcher: a log line or a
network POST.  (`create_task`/`asyncio.run` scheduling is abstracted away: the
dispatched reporter's effects are listed in order.) -/
inductive LogAction where
  | warn (msg : String) : LogAction
  | info (payload : Val) : LogAction
  | err (msg : String) : LogAction
  | netPost (endpoint : String) (body : Val) : LogAction

/-- Serialization of the record to a plain dict (`to_dict(data)` in
`report_metrics`; the record is a pydantic model, so its fields become
keys). -/
def metricsToDict (m : MetricsData) : PyDict :=
  [("endpoint_name", Val.str m.endpoint_name), ("method", Val.str m.method),
   ("trace_id", m.trace_id), ("user_id", m.user_id), ("user", m.user),
   ("assistant_id", m.assistant_id), ("assistant", m.assistant),
   ("object_ids", Val.dict m.object_ids), ("model", m.model),
   ("success", Val.bool m.success), ("error", m.error),
   ("status_code", m.status_code), ("input_tokens", m.input_tokens),
   ("output_tokens", m.output_tokens), ("input_nb_tokens", m.input_nb_tokens),
   ("output_nb_tokens", m.output_nb_tokens), ("search_units", m.search_units)]

/-- `report_metrics` (metrics.py:166-183): serialize, add the `secret` field,
wrap under the top-level `signal` key, always log the signal; then, only if an
endpoint is configured, attempt exactly one POST, logging (never raising) on
delivery failure.  `postFails` abstracts the network outcome. -/
def report_metrics (endpoint : Option String) (postFails : Bool) (data : MetricsData) :
    List LogAction :=
  let d := dictInsert (metricsToDict data) "secret" (Val.str "secret")
  let signal := Val.dict [("signal", Val.dict d)]
  LogAction.info signal ::
    match endpoint with
    | Option.none => [LogAction.err "No report endpoint set"]
    | some ep =>
      LogAction.netPost ep signal ::
        (if postFails then [LogAction.err "Failed to report metrics"] else [])

/-- `run_loop` (metrics.py:266-276): when there is no record or no configured
endpoint (`REPORT_ENDPOINT` unset), log a warning and return without invoking
the reporter; otherwise schedule `report_metrics` (detached task or
synchronous fallback — either way its effects occur). -/
def run_loop (endpoint : Option String) (postFails : Bool)
    (metrics_data : Option MetricsData) : List LogAction :=
  match metrics_data, endpoint with
  | some md, some ep => report_metrics (some ep) postFails md
  | _, _ => [LogAction.warn "No metrics data or endpoint set"]

/-! ### The three decorators -/

/-- The `AttributeError` raised by Python for an attribute assignment on a
tuple (`metrics_data.<attr> = ...` where `metrics_data` is the un-unpacked
pair returned by `initialize_metrics_data`). -/
def tupleAttrError (attr : String) : PyErr :=
  PyErr.attributeError ("tuple object has no attribute " ++ attr)

/-- What the chat wrapper's caller and collaborators observe. -/
structure ChatCallOutcome where
  /-- The wrapper's own outcome: a returned value or a raised exception. -/
  result : Except PyErr Val
  /-- The kwargs actually passed to the wrapped call. -/
  forwarded_kwargs : PyDict
  /-- The record handed to `run_loop`, when that line is reached. -/
  dispatched : Option MetricsData

/-- `collect_metrics_chat` (metrics.py:187-209).  The source does NOT unpack
the pair returned by `initialize_metrics_data` (line 191), so:
* `metrics_data` is bound to the pair and the wrapper's own `kwargs` — still
  containing the reserved keys — are forwarded to the wrapped call (line 195);
* in the `except` branch, `handle_error` starts with `metrics_data.success =
  False`, an attribute assignment on a tuple, which raises `AttributeError`
  while handling the original exception;
* the `finally` block's first statement (line 201) is again an attribute
  assignment on the tuple; the `AttributeError` it raises propagates out of
  `finally`, replacing any pending return or exception, so `run_loop` and
  `return response_dict` are never reached.
The wrapper therefore always raises `AttributeError` and dispatches nothing. -/
def collect_metrics_chat (call : PyDict → Except PyErr Val)
    (chat_request : Option ChatRequest) (kwargs : PyDict) : ChatCallOutcome :=
  let _metrics_data := initialize_metrics_data "chat" chat_request kwargs
  let _pending : Except PyErr Val :=
    match call kwargs with
    | Except.ok response => Except.ok (to_dict response)
    | Except.error _ => Except.error (tupleAttrError "success")
  { result := Except.error (tupleAttrError "input_tokens")
    forwarded_kwargs := kwargs
    dispatched := Option.none }

/-- What the rerank wrapper's caller and collaborators observe. -/
structure RerankCallOutcome where
  /-- The wrapper's own outcome: a returned value or a raised exception. -/
  result : Except PyErr Val
  /-- The kwargs actually passed to the wrapped call. -/
  forwarded_kwargs : PyDict
  /-- The record handed to `run_loop` in the `finally` block. -/
  dispatched : MetricsData

/-- `collect_metrics_rerank` (metrics.py:244-263).  The pair IS unpacked here,
so the reserved keys are removed before the wrapped call.  On success the dict
conversion of the response is returned and `search_units` recorded; on an
exception `handle_error` fills the record, but the `finally` block ends in
`return response_dict`, which in Python discards the pending `raise e` — the
caller receives the still-empty `{}` instead of the exception. -/
def collect_metrics_rerank (call : PyDict → Except PyErr Val) (kwargs : PyDict) :
    RerankCallOutcome :=
  let p := initialize_metrics_data "rerank" Option.none kwargs
  match call p.2 with
  | Except.ok response =>
    let response_dict := to_dict response
    { result := Except.ok response_dict
      forwarded_kwargs := p.2
      dispatched := { p.1 with search_units := get_search_units response_dict } }
  | Except.error e =>
    { result := Except.ok (Val.dict [])
      forwarded_kwargs := p.2
      dispatched := handle_error p.1 e }

/-- The `for event in stream:` loop body of `collect_metrics_chat_stream`
(metrics.py:221-233), applied to one event: the two terminal-event checks in
source order, then the yield. -/
def processEvent (md : MetricsData) (event : PyDict) : MetricsData :=
  let event_dict := to_dict_event event
  let md :=
    if is_event_end_with_error event_dict then
      { md with success := false, error := pyGet event_dict "error" }
    else md
  if valEqStr (pyGet event_dict "event_type") STREAM_END then
    { md with input_nb_tokens := (get_input_output_tokens (pyGet event_dict "response")).1,
              output_nb_tokens := (get_input_output_tokens (pyGet event_dict "response")).2 }
  else md

/-- The generator loop of `collect_metrics_chat_stream`: yields `to_dict` of
every upstream event in order while folding the record updates. -/
def streamLoop (md : MetricsData) : List PyDict → List PyDict × MetricsData
  | [] => ([], md)
  | e :: rest =>
    let ys := streamLoop (processEvent md e) rest
    (to_dict_event e :: ys.1, ys.2)

/-- `collect_metrics_chat_stream` (metrics.py:212-241): unpack the
`initialize_metrics_data` pair (removing the reserved kwargs), run the
pass-through generator loop over the upstream events, and dispatch the record
in `finally` once the sequence is exhausted.  The upstream sequence is the
`events` list; the yielded items and the dispatched record are returned. -/
def collect_metrics_chat_stream (events : List PyDict) (chat_request : Option ChatRequest)
    (kwargs : PyDict) : List PyDict × MetricsData :=
  let p := initialize_metrics_data "chat" chat_request kwargs
  streamLoop p.1 events

/-- Lookup in a built dict, as an `Option` (distinguishing an absent key from
a stored `None`); used to state the `object_ids` precedence property. -/
def dictFind : PyDict → String → Option Val
  | [], _ => Option.none
  | p :: rest, k => if p.1 == k then some p.2 else dictFind rest k

/-- The value of the LAST occurrence of key `k` in a raw key-value listing
(later entries shadow earlier ones, as in a Python `for`-loop of dict
assignments). -/
def lastVal : List (String × Val) → String → Option Val
  | [], _ => Option.none
  | kv :: rest, k => (lastVal rest k).or (if kv.1 == k then some kv.2 else Option.none)

/-! ### Concrete sample inputs for the evaluated theorems -/

/-- A non-terminal streamed event. -/
def evTextGen : PyDict := [("event_type", Val.str "text-generation"), ("text", Val.str "hi")]

/-- A terminal event whose completion reason is `"ERROR"`, carrying an error
message. -/
def evEndErr : PyDict :=
  [("event_type", Val.str STREAM_END), ("finish_reason", Val.str "ERROR"),
   ("error", Val.str "upstream failure")]

/-- A successfully completed terminal event whose embedded response payload
carries the usage counters. -/
def evEndOk : PyDict :=
  [("event_type", Val.str STREAM_END), ("finish_reason", Val.str "COMPLETE"),
   ("response", Val.dict [("meta", Val.dict [("billed_units",
      Val.dict [("input_tokens", Val.int 7), ("output_tokens", Val.int 3)])])])]

/-- A minimal concrete record. -/
def mdSample : MetricsData := { endpoint_name := "co.chat", method := "POST" }

/-! ### Helper lemmas -/

theorem char_toNat_ofNat_valid {n : Nat} (h : n.isValidChar) : (Char.ofNat n).toNat = n := by
  simp [Char.ofNat, h, Char.ofNatAux, Char.toNat, UInt32.toNat]

theorem char_toLower_toLower (c : Char) : Char.toLower (Char.toLower c) = Char.toLower c := by
  simp only [Char.toLower]
  by_cases h : c.toNat ≥ 65 ∧ c.toNat ≤ 90
  · rw [if_pos h]
    have hv : (c.toNat + 32).isValidChar := Or.inl (by omega)
    have ht : (Char.ofNat (c.toNat + 32)).toNat = c.toNat + 32 := char_toNat_ofNat_valid hv
    rw [if_neg (by omega)]
  · rw [if_neg h, if_neg h]

theorem pyLower_pyLower (s : String) : pyLower (pyLower s) = pyLower s := by
  unfold pyLower
  simp only [String.data]
  rw [List.map_map]
  congr 1
  exact List.map_congr_left (fun c _ => char_toLower_toLower c)

theorem replaceGo_of_not_contains (old new : List Char) (fuel : Nat) (s : List Char)
    (h : containsSub s old = false) : replaceGo old new fuel s = s := by
  induction fuel generalizing s with
  | zero => rfl
  | succ n ih =>
    match s with
    | [] => rfl
    | c :: rest =>
      unfold containsSub at h
      rw [Bool.or_eq_false_iff] at h
      unfold replaceGo
      rw [if_neg (by simp [h.1])]
      rw [ih rest h.2]

theorem pyReplace_of_not_contains (s old new : String)
    (h : containsSub s.data old.data = false) : pyReplace s old new = s := by
  unfold pyReplace
  match hm : old.data with
  | [] =>
    exfalso
    unfold containsSub at h
    rw [hm] at h
    simp [List.isPrefixOf] at h
  | c :: cs =>
    rw [hm] at h
    rw [replaceGo_of_not_contains _ _ _ _ h]

theorem replaceParams_of_not_contains (s : String) (params : List (String × String))
    (h : ∀ kv ∈ params, containsSub s.data kv.2.data = false) :
    replaceParams s params = s := by
  induction params with
  | nil => rfl
  | cons kv rest ih =>
    unfold replaceParams
    rw [List.foldl_cons, pyReplace_of_not_contains _ _ _ (h kv (List.mem_cons_self kv rest))]
    exact ih (fun kv' hm => h kv' (List.mem_cons_of_mem kv hm))

theorem stripSlash_of_not_endsWithSlash (s : String) (h : endsWithSlash s.data = false) :
    stripSlash s = s := by
  unfold stripSlash
  rw [h]
  rfl

theorem streamLoop_fst (md : MetricsData) (events : List PyDict) :
    (streamLoop md events).1 = events := by
  induction events generalizing md with
  | nil => rfl
  | cons e rest ih =>
    unfold streamLoop
    simp only [to_dict_event]
    rw [ih]

theorem streamLoop_append (md : MetricsData) (xs ys : List PyDict) :
    streamLoop md (xs ++ ys) =
      ((streamLoop md xs).1 ++ (streamLoop (streamLoop md xs).2 ys).1,
       (streamLoop (streamLoop md xs).2 ys).2) := by
  induction xs generalizing md with
  | nil => rfl
  | cons e rest ih =>
    simp only [List.cons_append, streamLoop, List.append_eq]
    rw [ih]

theorem processEvent_input_tokens (md : MetricsData) (e : PyDict) :
    (processEvent md e).input_tokens = md.input_tokens := by
  simp only [processEvent]
  split <;> split <;> rfl

theorem processEvent_output_tokens (md : MetricsData) (e : PyDict) :
    (processEvent md e).output_tokens = md.output_tokens := by
  simp only [processEvent]
  split <;> split <;> rfl

theorem streamLoop_input_tokens (md : MetricsData) (events : List PyDict) :
    ((streamLoop md events).2).input_tokens = md.input_tokens := by
  induction events generalizing md with
  | nil => rfl
  | cons e rest ih =>
    unfold streamLoop
    rw [ih, processEvent_input_tokens]

theorem streamLoop_output_tokens (md : MetricsData) (events : List PyDict) :
    ((streamLoop md events).2).output_tokens = md.output_tokens := by
  induction events generalizing md with
  | nil => rfl
  | cons e rest ih =>
    unfold streamLoop
    rw [ih, processEvent_output_tokens]

theorem valEqStr_of_eq {v : Val} {s : String} (h : v = Val.str s) : valEqStr v s = true := by
  rw [h]
  simp [valEqStr]

theorem valEqStr_eq_false {v : Val} {s : String} (h : v ≠ Val.str s) : valEqStr v s = false := by
  cases v with
  | str t =>
    simp only [valEqStr, beq_eq_false_iff_ne, ne_eq]
    intro he
    exact h (by rw [he])
  | none => rfl
  | int n => rfl
  | bool b => rfl
  | dict d => rfl

theorem dictFind_insert (d : PyDict) (a : String) (v : Val) (k : String) :
    dictFind (dictInsert d a v) k = if k == a then some v else dictFind d k := by
  induction d with
  | nil =>
    by_cases h : k = a
    · simp [dictInsert, dictFind, h]
    · simp [dictInsert, dictFind, h, Ne.symm h]
  | cons p rest ih =>
    by_cases hpa : p.1 = a
    · by_cases hka : k = a
      · simp [dictInsert, dictFind, hpa, hka]
      · simp [dictInsert, dictFind, hpa, hka, Ne.symm hka, fun h => hka (hpa ▸ h)]
    · by_cases hkp : k = p.1
      · have hka : ¬(k = a) := fun h => hpa (hkp ▸ h)
        simp [dictInsert, dictFind, hpa, hkp, hka]
      · simp [dictInsert, dictFind, hpa, Ne.symm hkp, ih]

theorem dictFind_foldl_insert (l : List (String × Val)) (d : PyDict) (k : String) :
    dictFind (l.foldl (fun d kv => dictInsert d kv.1 kv.2) d) k
      = (lastVal l k).or (dictFind d k) := by
  induction l generalizing d with
  | nil => rfl
  | cons kv rest ih =>
    rw [List.foldl_cons, ih, lastVal, Option.or_assoc]
    congr 1
    rw [dictFind_insert]
    by_cases h : k = kv.1
    · simp [h]
    · simp [h, Ne.symm h]

theorem processEvent_end_fields (md : MetricsData) (t : PyDict)
    (hend : pyGet t "event_type" = Val.str STREAM_END) :
    (processEvent md t).input_nb_tokens = (get_input_output_tokens (pyGet t "response")).1
      ∧ (processEvent md t).output_nb_tokens = (get_input_output_tokens (pyGet t "response")).2 := by
  unfold processEvent
  simp only [to_dict_event]
  rw [if_pos (valEqStr_of_eq hend)]
  exact ⟨rfl, rfl⟩

/-! ### The claims -/

/-- **C1** (code_bug).  The claim: a chat/rerank wrapper records
`success=false`, `error`, `status_code` on an exception and then *re-raises
the original exception unchanged*.  At the failing input — a rerank call whose
wrapped function raises `ApiError("rate limited", 429)` — the record is filled
as claimed, but the `return response_dict` in the `finally` block
(metrics.py:261) swallows the pending `raise e` and the caller receives a
normal `{}`; the chat variant instead raises `AttributeError` from the
un-unpacked tuple (metrics.py:191/201).  Evaluation of both wrappers at that
input. -/
theorem c1_exception_not_reraised :
    (collect_metrics_rerank (fun _ => Except.error (PyErr.apiError "rate limited" 429)) []).result
        = Except.ok (Val.dict [])
      ∧ (collect_metrics_rerank (fun _ => Except.error (PyErr.apiError "rate limited" 429)) []).dispatched.success
        = false
      ∧ (collect_metrics_rerank (fun _ => Except.error (PyErr.apiError "rate limited" 429)) []).dispatched.error
        = Val.str "rate limited"
      ∧ (collect_metrics_rerank (fun _ => Except.error (PyErr.apiError "rate limited" 429)) []).dispatched.status_code
        = Val.int 429
      ∧ (collect_metrics_chat (fun _ => Except.error (PyErr.apiError "rate limited" 429)) Option.none []).result
        = Except.error (tupleAttrError "input_tokens") :=
  ⟨rfl, rfl, rfl, rfl, rfl⟩

/-- **C2** (confirmed).  The streaming-chat wrapper yields exactly the items of
the upstream event sequence, unmodified and in the same order, with no item
dropped, duplicated, reordered, buffered, or filtered — for sequences of any
length (0, 1, N). -/
theorem c2_stream_passthrough (events : List PyDict) (chat_request : Option ChatRequest)
    (kwargs : PyDict) :
    (collect_metrics_chat_stream events chat_request kwargs).1 = events := by
  show (streamLoop (initialize_metrics_data "chat" chat_request kwargs).1 events).1 = events
  exact streamLoop_fst _ events

/-- **C3** counterexample.  The claim: every extractor catches internal errors
and never propagates an exception.  `get_agent` has no try/except: for a
request whose attached agent context object lacks the `version` attribute, the
`AttributeError` propagates to the caller. -/
theorem c3_counterexample_get_agent_propagates :
    get_agent (some ⟨[("id", Val.str "a-1")]⟩)
      = Except.error (PyErr.attributeError "version") := rfl

/-- **C3** (corrected, amended).  Extractors other than the agent-snapshot
extractor catch internal errors and return their documented default — e.g.
`get_user` returns `None` when reading a user attribute raises — but
`get_agent` handles only the absent/null case: an error raised while reading
an agent attribute propagates to its caller. -/
theorem c3_extractor_isolation (u a : PyAttrObj) (e e' : PyErr)
    (hu : getAttr u "id" = Except.error e)
    (ha : getAttr a "id" = Except.error e') :
    get_user (some u) = Val.none ∧ get_agent (some a) = Except.error e' := by
  constructor
  · simp [get_user, hu, Bind.bind, Except.bind]
  · simp [get_agent, ha, Bind.bind, Except.bind]

/-- **C3** witness: the amended theorem applied to user and agent context
objects with no attributes at all. -/
theorem c3_extractor_isolation_witness :
    get_user (some ⟨[]⟩) = Val.none
      ∧ get_agent (some ⟨[]⟩) = Except.error (PyErr.attributeError "id") :=
  c3_extractor_isolation ⟨[]⟩ ⟨[]⟩ (PyErr.attributeError "id") (PyErr.attributeError "id") rfl rfl

/-- **C4** (code_bug).  The claim: every wrapper removes the reserved kwargs
`trace_id`/`user_id`/`agent_id` before invoking the wrapped call, seeds the
record with them, and forwards the rest.  `collect_metrics_chat` never unpacks
the `initialize_metrics_data` pair (metrics.py:191), so the wrapped call still
receives `trace_id` and no record is ever seeded or dispatched; the rerank
wrapper, which does unpack, behaves as claimed.  Evaluation at the failing
input. -/
theorem c4_chat_forwards_reserved_kwargs :
    (collect_metrics_chat (fun _ => Except.ok (Val.dict [])) Option.none
        [("trace_id", Val.str "t-1"), ("temperature", Val.int 1)]).forwarded_kwargs
      = [("trace_id", Val.str "t-1"), ("temperature", Val.int 1)]
    ∧ (collect_metrics_chat (fun _ => Except.ok (Val.dict [])) Option.none
        [("trace_id", Val.str "t-1"), ("temperature", Val.int 1)]).dispatched
      = Option.none
    ∧ (collect_metrics_rerank (fun _ => Except.ok (Val.dict []))
        [("trace_id", Val.str "t-1"), ("temperature", Val.int 1)]).forwarded_kwargs
      = [("temperature", Val.int 1)]
    ∧ (collect_metrics_rerank (fun _ => Except.ok (Val.dict []))
        [("trace_id", Val.str "t-1"), ("temperature", Val.int 1)]).dispatched.trace_id
      = Val.str "t-1" :=
  ⟨rfl, rfl, rfl, rfl⟩

/-- **C5** (code_bug).  The claim: on normal completion the wrapper returns
the wrapped call's original result unchanged.  The chat wrapper always raises
`AttributeError` in its `finally` block (attribute assignment on the
un-unpacked tuple, metrics.py:201), so the result never reaches the caller;
the rerank wrapper does return its (identity-converted) result.  Evaluation at
the failing input: a chat call completing normally. -/
theorem c5_chat_discards_result :
    (collect_metrics_chat (fun _ => Except.ok (Val.dict [("text", Val.str "hi")]))
        Option.none []).result
      = Except.error (tupleAttrError "input_tokens")
    ∧ (collect_metrics_rerank (fun _ => Except.ok (Val.dict [("text", Val.str "hi")])) []).result
      = Except.ok (Val.dict [("text", Val.str "hi")]) :=
  ⟨rfl, rfl⟩

/-- **C6** counterexample.  The claim: with no sink endpoint configured, the
record is still serialized under the `signal` key and written to the local
log.  Dispatching a concrete record with no endpoint configured emits only the
generic warning — no log action carrying the record exists. -/
theorem c6_counterexample_no_signal_log :
    run_loop Option.none false (some mdSample)
      = [LogAction.warn "No metrics data or endpoint set"] := rfl

/-- **C6** (corrected, amended).  When no sink endpoint is configured no
network call occurs, but no signal-serialized log entry is produced either:
`run_loop` returns after a generic warning and never invokes the reporter
(the only place the `signal`-wrapped record is logged). -/
theorem c6_no_endpoint_only_warns (postFails : Bool) (metrics_data : Option MetricsData) :
    run_loop Option.none postFails metrics_data
      = [LogAction.warn "No metrics data or endpoint set"] := by
  cases metrics_data with
  | none => rfl
  | some md => rfl

/-- **C7** (confirmed).  If the stream's terminal event has a completion
reason that is neither `"COMPLETE"` nor `"MAX_TOKENS"`, the record is marked
`success = false` with `error` taken from that event's error field, while the
full event sequence — terminal event included — is still yielded to the
caller (the wrapper's outcome is the yielded list itself; no exception
arises). -/
theorem c7_terminal_error_event (pre : List PyDict) (t : PyDict)
    (chat_request : Option ChatRequest) (kwargs : PyDict)
    (hend : pyGet t "event_type" = Val.str STREAM_END)
    (hc : pyGet t "finish_reason" ≠ Val.str "COMPLETE")
    (hm : pyGet t "finish_reason" ≠ Val.str "MAX_TOKENS") :
    (collect_metrics_chat_stream (pre ++ [t]) chat_request kwargs).1 = pre ++ [t]
      ∧ (collect_metrics_chat_stream (pre ++ [t]) chat_request kwargs).2.success = false
      ∧ (collect_metrics_chat_stream (pre ++ [t]) chat_request kwargs).2.error
        = pyGet t "error" := by
  have herr : is_event_end_with_error t = true := by
    unfold is_event_end_with_error
    rw [valEqStr_of_eq hend, valEqStr_eq_false hc, valEqStr_eq_false hm]
    rfl
  have key : (collect_metrics_chat_stream (pre ++ [t]) chat_request kwargs).2
      = processEvent (streamLoop (initialize_metrics_data "chat" chat_request kwargs).1 pre).2 t := by
    show (streamLoop (initialize_metrics_data "chat" chat_request kwargs).1 (pre ++ [t])).2
        = processEvent (streamLoop (initialize_metrics_data "chat" chat_request kwargs).1 pre).2 t
    rw [streamLoop_append]
    rfl
  have hpe : ∀ md : MetricsData, (processEvent md t).success = false
      ∧ (processEvent md t).error = pyGet t "error" := by
    intro md
    unfold processEvent
    simp only [to_dict_event]
    rw [if_pos herr, if_pos (valEqStr_of_eq hend)]
    exact ⟨rfl, rfl⟩
  refine ⟨?_, ?_, ?_⟩
  · show (streamLoop (initialize_metrics_data "chat" chat_request kwargs).1 (pre ++ [t])).1
        = pre ++ [t]
    exact streamLoop_fst _ _
  · rw [key]
    exact (hpe _).1
  · rw [key]
    exact (hpe _).2

/-- **C7** witness: a two-event stream whose terminal event has completion
reason `"ERROR"`. -/
theorem c7_terminal_error_event_witness :
    (collect_metrics_chat_stream ([evTextGen] ++ [evEndErr]) Option.none []).1
        = [evTextGen] ++ [evEndErr]
      ∧ (collect_metrics_chat_stream ([evTextGen] ++ [evEndErr]) Option.none []).2.success = false
      ∧ (collect_metrics_chat_stream ([evTextGen] ++ [evEndErr]) Option.none []).2.error
        = pyGet evEndErr "error" :=
  c7_terminal_error_event [evTextGen] evEndErr Option.none [] rfl
    (by intro h; injection h with h'; exact absurd h' (by decide))
    (by intro h; injection h with h'; exact absurd h' (by decide))

/-- **C8** counterexample.  The claim: normalization is idempotent for every
path and parameter mapping.  With parameter map `{p: "ab"}` the path `"/AB"`
normalizes to `"/ab"` (the case-sensitive replacement misses the upper-case
occurrence, and lowercasing then exposes it), and normalizing `"/ab"` again
yields `"/:p"`. -/
theorem c8_counterexample_not_idempotent :
    get_endpoint_name (get_endpoint_name "/AB" [("p", "ab")]) [("p", "ab")]
      ≠ get_endpoint_name "/AB" [("p", "ab")] := by decide

/-- **C8** (corrected, amended).  Endpoint-name normalization is the pure
function of (path, parameter mapping) given by replacing every occurrence of
each parameter's value with `:<name>`, stripping one trailing `/`, then
lowercasing; it is idempotent whenever no parameter value occurs as a
substring of the normalized path and the normalized path does not end in `/`
(the counterexample shows idempotence fails unconditionally). -/
theorem c8_normalization (path : String) (params : List (String × String)) :
    get_endpoint_name path params = pyLower (stripSlash (replaceParams path params))
      ∧ ((∀ kv ∈ params, containsSub (get_endpoint_name path params).data kv.2.data = false) →
          endsWithSlash (get_endpoint_name path params).data = false →
          get_endpoint_name (get_endpoint_name path params) params
            = get_endpoint_name path params) := by
  refine ⟨rfl, fun h1 h2 => ?_⟩
  show pyLower (stripSlash (replaceParams (get_endpoint_name path params) params))
      = get_endpoint_name path params
  rw [replaceParams_of_not_contains _ _ h1, stripSlash_of_not_endsWithSlash _ h2]
  show pyLower (pyLower (stripSlash (replaceParams path params)))
      = get_endpoint_name path params
  rw [pyLower_pyLower]
  rfl

/-- **C8** witness: the amended theorem applied to `/users/u1/` with parameter
map `{uid: "u1"}` (normalized form `/users/:uid`, which contains no parameter
value and has no trailing slash). -/
theorem c8_normalization_witness :
    get_endpoint_name "/users/u1/" [("uid", "u1")]
        = pyLower (stripSlash (replaceParams "/users/u1/" [("uid", "u1")]))
      ∧ get_endpoint_name (get_endpoint_name "/users/u1/" [("uid", "u1")]) [("uid", "u1")]
        = get_endpoint_name "/users/u1/" [("uid", "u1")] :=
  ⟨(c8_normalization "/users/u1/" [("uid", "u1")]).1,
   (c8_normalization "/users/u1/" [("uid", "u1")]).2 (by decide) (by decide)⟩

/-- **C9** counterexample.  The claim: the counters land in the record's
`input_tokens`/`output_tokens` fields.  For a one-event stream whose terminal
event's payload carries `input_tokens = 7`, `output_tokens = 3`, the wrapper
leaves the record's `input_tokens`/`output_tokens` null and stores the
counters in `input_nb_tokens`/`output_nb_tokens` (metrics.py:229). -/
theorem c9_counterexample_wrong_fields :
    (collect_metrics_chat_stream [evEndOk] Option.none []).2.input_tokens = Val.none
      ∧ (collect_metrics_chat_stream [evEndOk] Option.none []).2.output_tokens = Val.none
      ∧ (collect_metrics_chat_stream [evEndOk] Option.none []).2.input_nb_tokens = Val.int 7
      ∧ (collect_metrics_chat_stream [evEndOk] Option.none []).2.output_nb_tokens = Val.int 3 :=
  ⟨rfl, rfl, rfl, rfl⟩

/-- **C9** (corrected, amended).  For every stream ending in the terminal
event, the wrapper extracts the usage counters of the terminal event's
embedded response payload into the record's `input_nb_tokens` and
`output_nb_tokens` fields — both null when the payload is absent — regardless
of any data-level failure signal; the record's `input_tokens` and
`output_tokens` fields remain null. -/
theorem c9_stream_usage_counters (pre : List PyDict) (t : PyDict)
    (chat_request : Option ChatRequest) (kwargs : PyDict)
    (hend : pyGet t "event_type" = Val.str STREAM_END) :
    (collect_metrics_chat_stream (pre ++ [t]) chat_request kwargs).2.input_nb_tokens
        = (get_input_output_tokens (pyGet t "response")).1
      ∧ (collect_metrics_chat_stream (pre ++ [t]) chat_request kwargs).2.output_nb_tokens
        = (get_input_output_tokens (pyGet t "response")).2
      ∧ (collect_metrics_chat_stream (pre ++ [t]) chat_request kwargs).2.input_tokens
        = Val.none
      ∧ (collect_metrics_chat_stream (pre ++ [t]) chat_request kwargs).2.output_tokens
        = Val.none
      ∧ (pyGet t "response" = Val.none →
          (collect_metrics_chat_stream (pre ++ [t]) chat_request kwargs).2.input_nb_tokens
              = Val.none
            ∧ (collect_metrics_chat_stream (pre ++ [t]) chat_request kwargs).2.output_nb_tokens
              = Val.none) := by
  have key : (collect_metrics_chat_stream (pre ++ [t]) chat_request kwargs).2
      = processEvent (streamLoop (initialize_metrics_data "chat" chat_request kwargs).1 pre).2 t := by
    show (streamLoop (initialize_metrics_data "chat" chat_request kwargs).1 (pre ++ [t])).2
        = processEvent (streamLoop (initialize_metrics_data "chat" chat_request kwargs).1 pre).2 t
    rw [streamLoop_append]
    rfl
  have hfields := processEvent_end_fields
    (streamLoop (initialize_metrics_data "chat" chat_request kwargs).1 pre).2 t hend
  refine ⟨?_, ?_, ?_, ?_, fun hresp => ⟨?_, ?_⟩⟩
  · rw [key]
    exact hfields.1
  · rw [key]
    exact hfields.2
  · rw [key, processEvent_input_tokens, streamLoop_input_tokens]
    rfl
  · rw [key, processEvent_output_tokens, streamLoop_output_tokens]
    rfl
  · rw [key, hfields.1, hresp]
    rfl
  · rw [key, hfields.2, hresp]
    rfl

/-- **C9** witness: the amended theorem applied to a two-event stream ending
in the successfully completed terminal event with counters 7/3. -/
theorem c9_stream_usage_counters_witness :
    (collect_metrics_chat_stream ([evTextGen] ++ [evEndOk]) Option.none []).2.input_nb_tokens
        = (get_input_output_tokens (pyGet evEndOk "response")).1
      ∧ (collect_metrics_chat_stream ([evTextGen] ++ [evEndOk]) Option.none []).2.output_nb_tokens
        = (get_input_output_tokens (pyGet evEndOk "response")).2
      ∧ (collect_metrics_chat_stream ([evTextGen] ++ [evEndOk]) Option.none []).2.input_tokens
        = Val.none
      ∧ (collect_metrics_chat_stream ([evTextGen] ++ [evEndOk]) Option.none []).2.output_tokens
        = Val.none
      ∧ (pyGet evEndOk "response" = Val.none →
          (collect_metrics_chat_stream ([evTextGen] ++ [evEndOk]) Option.none []).2.input_nb_tokens
              = Val.none
            ∧ (collect_metrics_chat_stream ([evTextGen] ++ [evEndOk]) Option.none []).2.output_nb_tokens
              = Val.none) :=
  c9_stream_usage_counters [evTextGen] evEndOk Option.none [] rfl

/-- **C10** (confirmed).  `object_ids` is built by inserting all path
parameters and then all query parameters: a key present in both listings maps
to its (last) query-parameter value, and a key present in only one maps to its
(last) value there; a key in neither is absent. -/
theorem c10_object_ids_precedence (path_params query_params : List (String × Val)) (k : String) :
    dictFind (get_object_ids path_params query_params) k
      = (lastVal query_params k).or (lastVal path_params k) := by
  unfold get_object_ids
  rw [dictFind_foldl_insert, dictFind_foldl_insert]
  rw [show dictFind [] k = Option.none from rfl, Option.or_none]

end Metrics
